import Mathlib

/-!
# MythTV: Blu-ray buffer session, GPU video output, key bindings and audio settings

A shallow embedding of

* `libs/libmythtv/Bluray/bdringbuffer.h` (class `MythBDBuffer`, class `MythBDOverlay`):
  the member fields and their initial values are taken from the header; the member
  function bodies live in `bdringbuffer.cpp`, which is not among the sources, so each
  of them is modelled from the specification and marked as such;
* `libs/libmythtv/mythvideooutgpu.cpp` (`MythVideoOutputGPU::DoneDisplayingFrame`,
  `MythVideoOutputGPU::InputChanged`);
* `programs/mythfrontend/action.h` (classes `Action` and `ActionID`);
* `programs/mythfrontend/audiogeneralsettings.cpp` (`AudioTestThread::run`,
  `AudioConfigSettings::AudioRescan`).
-/

namespace MythBD

/-! ## Data model of `bdringbuffer.h` -/

/-- The enum `MythBDBuffer::processState_t` (bdringbuffer.h, lines 146-151). -/
inductive processState_t where
  | PROCESS_NORMAL
  | PROCESS_REPROCESS
  | PROCESS_WAIT
deriving DecidableEq, Repr

/-- A decoded bitmap: `width * height` pixel values in row-major order.  The null
`QImage` of a default-constructed overlay is `none` in `MythBDOverlay.m_image`. -/
structure QImage where
  width : Nat
  height : Nat
  pixels : List Nat
deriving DecidableEq, Repr

/-- The class `MythBDOverlay` (bdringbuffer.h, lines 49-64), with the member
initialisers of the header: a null image, `m_pts = -1`, `m_x = m_y = 0`. -/
structure MythBDOverlay where
  m_image : Option QImage := none
  m_pts : Int := -1
  m_x : Int := 0
  m_y : Int := 0
deriving DecidableEq, Repr

/-- The error taxonomy of the specification (section 7). -/
inductive BDError where
  | OpenError
  | NotFound
  | IOError
  | SeekError
  | InvalidState
  | Closed
deriving DecidableEq, Repr

/-- What the navigation engine (libbluray, an external collaborator) reports about
the disc it has open: one duration per title, the number of playlists, the main title
the disc declares (if any), the capability flags, and the angle count and size of a
title. -/
structure BDDisc where
  titleDurations : List Nat
  numPlaylists : Nat
  declaredMainTitle : Option Nat := none
  hdmvNavigation : Bool := false
  topMenuSupported : Bool := false
  firstPlaySupported : Bool := false
  angleCount : Nat := 1
  titleSize : Nat := 0
deriving DecidableEq, Repr

/-- The number of titles of a disc. -/
def BDDisc.numTitles (d : BDDisc) : Nat := d.titleDurations.length

/-- The members of `MythBDBuffer` that the navigation state machine uses
(bdringbuffer.h, lines 153-198), each with the initial value the header gives it.
`m_bdnav` is the engine handle: `none` is the null pointer, `some d` a handle on the
engine that serves disc `d`; `m_readPos` is the read position kept by the base class
`MythMediaBuffer`. -/
structure MythBDBuffer where
  m_bdnav : Option BDDisc := none
  m_isHDMVNavigation : Bool := false
  m_topMenuSupported : Bool := false
  m_firstPlaySupported : Bool := false
  m_numTitles : Nat := 0
  m_mainTitle : Nat := 0
  m_currentTitleLength : Nat := 0
  m_titlesize : Nat := 0
  m_currentTitleAngleCount : Nat := 0
  m_currentTime : Nat := 0
  m_currentAngle : Int := 0
  m_currentTitle : Int := -1
  m_currentPlaylist : Int := 0
  m_currentPlayitem : Int := 0
  m_currentChapter : Int := 0
  m_currentAudioStream : Int := 0
  m_currentIGStream : Int := 0
  m_currentPGTextSTStream : Int := 0
  m_currentSecondaryAudioStream : Int := 0
  m_currentSecondaryVideoStream : Int := 0
  m_pgTextSTEnabled : Bool := false
  m_secondaryAudioEnabled : Bool := false
  m_secondaryVideoEnabled : Bool := false
  m_titleChanged : Bool := false
  m_playerWait : Bool := false
  m_ignorePlayerWait : Bool := true
  m_overlayPlanes : List (Option MythBDOverlay) := []
  m_stillTime : Int := 0
  m_inMenu : Bool := false
  m_processState : processState_t := processState_t.PROCESS_NORMAL
  m_pendingData : List Nat := []
  m_lastError : String := ""
  m_readPos : Int := 0
deriving DecidableEq, Repr

/-- The freshly constructed session: every member at its header initialiser. -/
def MythBDBuffer.fresh : MythBDBuffer := {}

/-! ## Overlay planes -/

/-- Modelled from the spec: the body of `MythBDOverlay::Wipe(Left, Top, Width, Height)`
is in `bdringbuffer.cpp`, which is missing.  Section 3 says a wipe "clears a
sub-rectangle without reallocating"; the pixel at column `x`, row `y` is cleared
(set to `0`) when it lies inside the rectangle, every other pixel is kept. -/
def QImage.wipeRect (img : QImage) (Left Top Width Height : Int) : QImage :=
  { img with
    pixels := img.pixels.enum.map fun (ip : Nat × Nat) =>
      let x : Int := ((ip.1 % img.width : Nat) : Int)
      let y : Int := ((ip.1 / img.width : Nat) : Int)
      if Left ≤ x ∧ x < Left + Width ∧ Top ≤ y ∧ y < Top + Height then 0 else ip.2 }

/-- Modelled from the spec: `MythBDOverlay::Wipe(int, int, int, int)` (body missing).
Section 4.2: "a wipe-region command targeting an uninitialized plane is a no-op
(never allocates on wipe, only on full replace)"; on an initialised plane the
sub-rectangle of the existing image is cleared in place. -/
def MythBDOverlay.Wipe (o : MythBDOverlay) (Left Top Width Height : Int) : MythBDOverlay :=
  match o.m_image with
  | none => o
  | some img => { o with m_image := some (img.wipeRect Left Top Width Height) }

/-- An overlay command of the navigation engine (section 4.2): a full replace of the
addressed plane, or a wipe of a region of it. -/
inductive OverlayCommand where
  | draw (plane : Nat) (overlay : MythBDOverlay)
  | wipe (plane : Nat) (Left Top Width Height : Int)
deriving DecidableEq, Repr

/-- Modelled from the spec: `MythBDBuffer::SubmitOverlay` / `SubmitARGBOverlay` (bodies
missing).  Section 3: a plane is "created/replaced whole on a draw event" and "mutated
in-place by wipe region events"; a wipe never allocates, so a plane that does not
exist yet stays absent. -/
def SubmitOverlay (planes : List (Option MythBDOverlay)) : OverlayCommand →
    List (Option MythBDOverlay)
  | .draw plane overlay =>
      (planes ++ List.replicate (plane + 1 - planes.length) none).set plane (some overlay)
  | .wipe plane Left Top Width Height =>
      planes.modify (Option.map fun o => o.Wipe Left Top Width Height) plane

/-- Modelled from the spec: `MythBDBuffer::ClearOverlays` (body missing), the
`ClearAll()` of section 4.2: "removes all planes' content". -/
def ClearOverlays (s : MythBDBuffer) : MythBDBuffer :=
  { s with m_overlayPlanes := [] }

/-! ## Event dispatcher -/

/-- The tagged variant `PendingEvent` of the specification (section 3). -/
inductive PendingEvent where
  | none
  | titleChanged (title : Nat)
  | playlistStarted (playlist : Nat)
  | playitemChanged (playitem : Nat)
  | stillFrameEntered (seconds : Nat)
  | stillFrameCleared
  | menuPopup (shown : Bool)
  | menuOverlayUpdate (cmd : OverlayCommand)
  | menuARGBOverlayUpdate (cmd : OverlayCommand)
  | navigationError (text : String)
  | endOfStream
deriving DecidableEq, Repr

/-- Modelled from the spec: `MythBDBuffer::HandleBDEvent` (body missing), the per-event
mutation of section 4.3.  A title or playlist change "invalidates current chapter,
current time, and the title-changed flag (set true until consumed)" (section 4.1) and
clears the overlays (section 4.2); still-frame entry sets `PROCESS_WAIT` and records
the still duration; an error records the text and asks for one reprocess. -/
def HandleBDEvent (s : MythBDBuffer) : PendingEvent → MythBDBuffer
  | .none => s
  | .titleChanged title =>
      ClearOverlays { s with m_currentTitle := (title : Int), m_currentChapter := 0,
                             m_currentTime := 0, m_titleChanged := true }
  | .playlistStarted playlist =>
      ClearOverlays { s with m_currentPlaylist := (playlist : Int), m_currentPlayitem := 0,
                             m_currentChapter := 0, m_currentTime := 0,
                             m_titleChanged := true }
  | .playitemChanged playitem => { s with m_currentPlayitem := (playitem : Int) }
  | .stillFrameEntered seconds =>
      { s with m_processState := processState_t.PROCESS_WAIT, m_stillTime := (seconds : Int) }
  | .stillFrameCleared => { s with m_stillTime := 0 }
  | .menuPopup shown => { s with m_inMenu := shown }
  | .menuOverlayUpdate cmd => { s with m_overlayPlanes := SubmitOverlay s.m_overlayPlanes cmd }
  | .menuARGBOverlayUpdate cmd =>
      { s with m_overlayPlanes := SubmitOverlay s.m_overlayPlanes cmd }
  | .navigationError text =>
      { s with m_lastError := text, m_processState := processState_t.PROCESS_REPROCESS }
  | .endOfStream => s

/-- Modelled from the spec: `MythBDBuffer::TitleChanged` (bdringbuffer.h line 112, body
missing).  Section 4.3: the title-changed flag is "consumed once by `TitleChanged()`,
which returns true exactly once per change, then resets to false".  The result is the
pair of the returned value and the session afterwards. -/
def TitleChanged (s : MythBDBuffer) : Bool × MythBDBuffer :=
  (s.m_titleChanged, { s with m_titleChanged := false })

/-- The session after `n` consecutive polls of `TitleChanged`. -/
def pollTitleChanged : Nat → MythBDBuffer → MythBDBuffer
  | 0, s => s
  | n + 1, s => pollTitleChanged n (TitleChanged s).2

/-! ## Disc session -/

/-- Whether a fallible call succeeded: the `bool` the C++ member function returns. -/
def succeeded {ε α : Type} : Except ε α → Bool
  | .ok _ => true
  | .error _ => false

/-- A request forwarded to the navigation engine. -/
inductive EngineRequest where
  | selectTitle (Index : Nat)
  | selectPlaylist (Index : Nat)
  | selectAngle (Angle : Nat)
deriving DecidableEq, Repr

/-- The index of the first title of maximal duration among `ds`, scanning from index
`i` with the best candidate `best` of duration `bestDur` so far. -/
def longestFrom : List Nat → Nat → Nat → Nat → Nat
  | [], _, best, _ => best
  | d :: ds, i, best, bestDur =>
      if bestDur < d then longestFrom ds (i + 1) i d else longestFrom ds (i + 1) best bestDur

/-- Modelled from the spec: the main-title choice made inside `MythBDBuffer::OpenFile`
(body missing).  Section 4.1: Open "selects a default (main) title heuristically
(longest title, or explicit disc-declared main title)". -/
def selectMainTitle (d : BDDisc) : Nat :=
  match d.declaredMainTitle with
  | some m => if m < d.numTitles then m else longestFrom d.titleDurations 0 0 0
  | none => longestFrom d.titleDurations 0 0 0

/-- Modelled from the spec: `MythBDBuffer::OpenFile` (body missing).  `disc` is what the
engine finds at the path within the retry budget: `none` when the path is not a valid
disc structure.  Section 4.1: on success Open "populates identity, title count,
capability flags, and selects a default (main) title"; a structure without a title
or without a playlist is not a valid disc; section 7: "no partially-open session is
exposed", so a failed open leaves the session as it was. -/
def OpenFile (s : MythBDBuffer) (disc : Option BDDisc) : Except BDError Unit × MythBDBuffer :=
  match disc with
  | none => (.error .OpenError, s)
  | some d =>
      if d.numTitles = 0 ∨ d.numPlaylists = 0 then (.error .OpenError, s)
      else
        (.ok (),
         { s with m_bdnav := some d
                  m_isHDMVNavigation := d.hdmvNavigation
                  m_topMenuSupported := d.topMenuSupported
                  m_firstPlaySupported := d.firstPlaySupported
                  m_numTitles := d.numTitles
                  m_mainTitle := selectMainTitle d
                  m_currentTitle := (selectMainTitle d : Int)
                  m_currentTitleLength := d.titleDurations.getD (selectMainTitle d) 0
                  m_currentTitleAngleCount := d.angleCount
                  m_titlesize := d.titleSize
                  m_currentPlaylist := 0
                  m_currentPlayitem := 0
                  m_currentChapter := 0
                  m_currentAngle := 0
                  m_currentTime := 0
                  m_titleChanged := true
                  m_processState := processState_t.PROCESS_NORMAL
                  m_readPos := 0 })

/-- Modelled from the spec: `MythBDBuffer::Close` (body missing).  Section 4.1: Close
"releases the navigation engine handle and all cached metadata; idempotent"; section
3: the overlay planes are "destroyed on session close". -/
def Close (s : MythBDBuffer) : MythBDBuffer :=
  ClearOverlays { s with m_bdnav := none }

/-- Modelled from the spec: `MythBDBuffer::SwitchTitle` (bdringbuffer.h line 123, body
missing).  Section 4.1: "The call itself only validates the index range and forwards
the request; actual state mutation happens in the Event Dispatcher"; section 8: an
index outside the title count "fails with NotFound/range error"; section 5: a call
on a closed session fails with `Closed`.  The result is the request handed to the
engine, and the session, which the call itself does not change. -/
def SwitchTitle (s : MythBDBuffer) (Index : Nat) : Except BDError EngineRequest × MythBDBuffer :=
  match s.m_bdnav with
  | none => (.error .Closed, s)
  | some _ =>
      if Index < s.m_numTitles then (.ok (.selectTitle Index), s)
      else (.error .NotFound, s)

/-- Modelled from the spec: `MythBDBuffer::SwitchPlaylist` (body missing); same contract
as `SwitchTitle`, against the playlist count of the open disc. -/
def SwitchPlaylist (s : MythBDBuffer) (Index : Nat) :
    Except BDError EngineRequest × MythBDBuffer :=
  match s.m_bdnav with
  | none => (.error .Closed, s)
  | some d =>
      if Index < d.numPlaylists then (.ok (.selectPlaylist Index), s)
      else (.error .NotFound, s)

/-- Modelled from the spec: `MythBDBuffer::SwitchAngle` (body missing); same contract as
`SwitchTitle`, against the angle count of the current title. -/
def SwitchAngle (s : MythBDBuffer) (Angle : Nat) : Except BDError EngineRequest × MythBDBuffer :=
  match s.m_bdnav with
  | none => (.error .Closed, s)
  | some _ =>
      if Angle < s.m_currentTitleAngleCount then (.ok (.selectAngle Angle), s)
      else (.error .NotFound, s)

/-! ## Read/seek adapter -/

/-- The `Whence` argument of `SeekInternal`. -/
inductive Whence where
  | SEEK_SET
  | SEEK_CUR
  | SEEK_END
deriving DecidableEq, Repr

/-- The absolute target of a seek request: "translates an absolute/relative byte
offset" (section 4.4). -/
def seekTarget (s : MythBDBuffer) (Position : Int) : Whence → Int
  | .SEEK_SET => Position
  | .SEEK_CUR => s.m_readPos + Position
  | .SEEK_END => (s.m_titlesize : Int) + Position

/-- Modelled from the spec: `MythBDBuffer::SeekInternal(long long, int)` (bdringbuffer.h
lines 129-130, body missing).  `events` are the engine events pending at the call
(section 4.3: "On each read/seek request, first drain all pending engine events");
`engineSeek` is the engine's seek call, `none` when it rejects the target.  Section
4.4: Seek "translates an absolute/relative byte offset into the engine's seek call;
resets ProcessState to Normal (a seek cancels any pending still-frame wait);
invalidates any read-ahead assumptions.  Fails with SeekError if the engine rejects the
target".  A closed session fails fast with `Closed` (section 5). -/
def SeekInternal (engineSeek : Int → Option Nat) (s : MythBDBuffer)
    (events : List PendingEvent) (Position : Int) (whence : Whence) :
    Except BDError Nat × MythBDBuffer :=
  match s.m_bdnav with
  | none => (.error .Closed, s)
  | some _ =>
      let s1 := events.foldl HandleBDEvent s
      match engineSeek (seekTarget s1 Position whence) with
      | none => (.error .SeekError, s1)
      | some pos =>
          (.ok pos, { s1 with m_processState := processState_t.PROCESS_NORMAL
                              m_pendingData := []
                              m_readPos := (pos : Int) })

/-- Modelled from the spec: `MythBDBuffer::SafeRead` (body missing).  `events` are the
engine events pending at the call, `firstTry` and `retry` the engine's answers to the
block read and to its single permitted repetition (`none` is an engine error).
Section 4.4: Read drains the events, returns zero bytes while `ProcessState` is Wait,
otherwise returns the bytes produced and "fails with IOError on underlying engine
error after the single permitted reprocess retry". -/
def SafeRead (s : MythBDBuffer) (events : List PendingEvent) (firstTry retry : Option Nat) :
    Except BDError Nat × MythBDBuffer :=
  match s.m_bdnav with
  | none => (.error .Closed, s)
  | some _ =>
      let s1 := events.foldl HandleBDEvent s
      if s1.m_processState = processState_t.PROCESS_WAIT then (.ok 0, s1)
      else
        match firstTry with
        | some n =>
            (.ok n, { s1 with m_processState := processState_t.PROCESS_NORMAL
                              m_readPos := s1.m_readPos + (n : Int) })
        | none =>
            match retry with
            | some n =>
                (.ok n, { s1 with m_processState := processState_t.PROCESS_NORMAL
                                  m_readPos := s1.m_readPos + (n : Int) })
            | none =>
                (.error .IOError, { s1 with m_processState := processState_t.PROCESS_NORMAL })

/-- Modelled from the spec: `MythBDBuffer::SkipBDWaitingForPlayer` (body missing), the
explicit skip signal of section 5 that ends a still-frame wait. -/
def SkipBDWaitingForPlayer (s : MythBDBuffer) : MythBDBuffer :=
  { s with m_playerWait := false
           m_stillTime := 0
           m_processState :=
             if s.m_processState = processState_t.PROCESS_WAIT then
               processState_t.PROCESS_NORMAL
             else s.m_processState }

/-! ## State snapshot and restore -/

/-- The semantic content of the snapshot token (section 4.5): "current title, playlist,
play-item, chapter, angle, and stream-selection state", together with the title and
playlist counts of the disc it was taken on, the bounds that Restore compares with
those of the open disc (section 4.5: "fails with InvalidState if bounds mismatch
(e.g., token from a different disc)"; section 8: "mismatched title count"). -/
structure BDStateSnapshot where
  numTitles : Nat
  numPlaylists : Nat
  title : Int
  playlist : Int
  playitem : Int
  chapter : Int
  angle : Int
  audioStream : Int
  pgTextSTStream : Int
  secondaryAudioStream : Int
  secondaryVideoStream : Int
  pgTextSTEnabled : Bool
  secondaryAudioEnabled : Bool
  secondaryVideoEnabled : Bool
deriving DecidableEq, Repr

/-- The token content of a session whose handle is on disc `d`. -/
def snapshotContent (d : BDDisc) (s : MythBDBuffer) : BDStateSnapshot :=
  { numTitles := d.numTitles
    numPlaylists := d.numPlaylists
    title := s.m_currentTitle
    playlist := s.m_currentPlaylist
    playitem := s.m_currentPlayitem
    chapter := s.m_currentChapter
    angle := s.m_currentAngle
    audioStream := s.m_currentAudioStream
    pgTextSTStream := s.m_currentPGTextSTStream
    secondaryAudioStream := s.m_currentSecondaryAudioStream
    secondaryVideoStream := s.m_currentSecondaryVideoStream
    pgTextSTEnabled := s.m_pgTextSTEnabled
    secondaryAudioEnabled := s.m_secondaryAudioEnabled
    secondaryVideoEnabled := s.m_secondaryVideoEnabled }

/-- Modelled from the spec: `MythBDBuffer::GetBDStateSnapshot` (bdringbuffer.h line 92,
body missing).  Section 4.5: Snapshot produces a token "encoding current title,
playlist, play-item, chapter, angle, and stream-selection state.  Pure function of
current session state; no side effects".  A closed session fails with `Closed`. -/
def GetBDStateSnapshot (s : MythBDBuffer) : Except BDError BDStateSnapshot :=
  match s.m_bdnav with
  | none => .error .Closed
  | some d => .ok (snapshotContent d s)

/-- The token matches the title/playlist bounds of disc `d`: it was taken on a disc
with the title and playlist counts of `d`, and its title and playlist indices lie
within them. -/
def tokenMatches (d : BDDisc) (token : BDStateSnapshot) : Prop :=
  token.numTitles = d.numTitles ∧ token.numPlaylists = d.numPlaylists ∧
  0 ≤ token.title ∧ token.title < (d.numTitles : Int) ∧
  0 ≤ token.playlist ∧ token.playlist < (d.numPlaylists : Int)

instance (d : BDDisc) (token : BDStateSnapshot) : Decidable (tokenMatches d token) := by
  unfold tokenMatches; infer_instance

/-- Modelled from the spec: `MythBDBuffer::RestoreBDStateSnapshot` (bdringbuffer.h line
93, body missing).  Section 4.5: Restore "validates the token against the currently
open disc's title/playlist bounds; fails with InvalidState if bounds mismatch; on
success, performs the equivalent of SwitchTitle+SwitchPlaylist+seek-to-chapter, then
clears overlays"; section 8 adds that the angle is restored as well.  The equivalent
of a switch is the request together with the engine's confirming event. -/
def RestoreBDStateSnapshot (s : MythBDBuffer) (token : BDStateSnapshot) :
    Except BDError Unit × MythBDBuffer :=
  match s.m_bdnav with
  | none => (.error .Closed, s)
  | some d =>
      if tokenMatches d token then
        let s1 := HandleBDEvent s (.titleChanged token.title.toNat)
        let s2 := HandleBDEvent s1 (.playlistStarted token.playlist.toNat)
        let s3 := { s2 with m_currentChapter := token.chapter
                            m_processState := processState_t.PROCESS_NORMAL }
        (.ok (), ClearOverlays { s3 with m_currentAngle := token.angle })
      else (.error .InvalidState, s)

/-! ## The session as a state machine -/

/-- The operations of a `MythBDBuffer` session, each with the answers of the
navigation engine that it consumes. -/
inductive Op where
  | openFile (disc : Option BDDisc)
  | close
  | switchTitle (Index : Nat)
  | switchPlaylist (Index : Nat)
  | switchAngle (Angle : Nat)
  | titleChanged
  | seek (engineSeek : Int → Option Nat) (events : List PendingEvent) (Position : Int)
      (whence : Whence)
  | read (events : List PendingEvent) (firstTry retry : Option Nat)
  | skipWait
  | snapshot
  | restore (token : BDStateSnapshot)
  | submitOverlay (cmd : OverlayCommand)
  | clearOverlays

/-- The session after an operation. -/
def step (s : MythBDBuffer) : Op → MythBDBuffer
  | .openFile disc => (OpenFile s disc).2
  | .close => Close s
  | .switchTitle Index => (SwitchTitle s Index).2
  | .switchPlaylist Index => (SwitchPlaylist s Index).2
  | .switchAngle Angle => (SwitchAngle s Angle).2
  | .titleChanged => (TitleChanged s).2
  | .seek engineSeek events Position whence =>
      (SeekInternal engineSeek s events Position whence).2
  | .read events firstTry retry => (SafeRead s events firstTry retry).2
  | .skipWait => SkipBDWaitingForPlayer s
  | .snapshot => s
  | .restore token => (RestoreBDStateSnapshot s token).2
  | .submitOverlay cmd => { s with m_overlayPlanes := SubmitOverlay s.m_overlayPlanes cmd }
  | .clearOverlays => ClearOverlays s

/-- An event the engine may emit for disc `d`: a title or playlist change names a
title or playlist of that disc. -/
def eventOfDisc (d : BDDisc) : PendingEvent → Prop
  | .titleChanged title => title < d.numTitles
  | .playlistStarted playlist => playlist < d.numPlaylists
  | _ => True

/-- The contract of the navigation engine (a black box, section 6): the events it
emits during a read or seek belong to the disc the session has open. -/
def engineContract (s : MythBDBuffer) : Op → Prop
  | .seek _ events _ _ => ∀ d, s.m_bdnav = some d → ∀ e ∈ events, eventOfDisc d e
  | .read events _ _ => ∀ d, s.m_bdnav = some d → ∀ e ∈ events, eventOfDisc d e
  | _ => True

/-- The sessions that can arise: the freshly constructed one, and every session
obtained from one of them by an operation under the engine contract. -/
inductive Reachable : MythBDBuffer → Prop where
  | fresh : Reachable MythBDBuffer.fresh
  | step (s : MythBDBuffer) (op : Op) : Reachable s → engineContract s op →
      Reachable (step s op)

/-- A session open on disc `d`: the handle is on `d`, the title count is that of `d`,
and the current title and playlist are a title and a playlist of `d`. -/
def IsOpenOn (d : BDDisc) (s : MythBDBuffer) : Prop :=
  s.m_bdnav = some d ∧ s.m_numTitles = d.numTitles ∧
  0 ≤ s.m_currentTitle ∧ s.m_currentTitle < (s.m_numTitles : Int) ∧
  0 ≤ s.m_currentPlaylist ∧ s.m_currentPlaylist < (d.numPlaylists : Int)

/-- The invariant of section 3 on the title index: `current title ∈ [-1, numTitles)`. -/
def titleInvariant (s : MythBDBuffer) : Prop :=
  -1 ≤ s.m_currentTitle ∧ s.m_currentTitle < (s.m_numTitles : Int)

/-- The invariant carried by every reachable session: the title invariant, and a
session whose handle is on disc `d` is open on `d`. -/
def sessionInvariant (s : MythBDBuffer) : Prop :=
  titleInvariant s ∧ ∀ d, s.m_bdnav = some d → IsOpenOn d s

/-! ## Sample discs and sessions -/

/-- A disc with three titles and two playlists. -/
def threeTitleDisc : BDDisc := { titleDurations := [10, 20, 30], numPlaylists := 2 }

/-- A disc with five titles and four playlists. -/
def fiveTitleDisc : BDDisc := { titleDurations := [5, 50, 15, 25, 35], numPlaylists := 4 }

/-- The session after opening the three-title disc. -/
def threeTitleSession : MythBDBuffer :=
  (OpenFile MythBDBuffer.fresh (some threeTitleDisc)).2

/-- A session open on the three-title disc and waiting in a still frame. -/
def waitingSession : MythBDBuffer :=
  { threeTitleSession with m_processState := processState_t.PROCESS_WAIT }

/-- The session after opening the five-title disc and a change to title 4 and playlist
3, at chapter 7 and angle 1. -/
def fiveTitleSession : MythBDBuffer :=
  { HandleBDEvent (HandleBDEvent (OpenFile MythBDBuffer.fresh (some fiveTitleDisc)).2
      (.titleChanged 4)) (.playlistStarted 3) with m_currentChapter := 7, m_currentAngle := 1 }

end MythBD

namespace MythGPU

/-! ## Video buffers used by `mythvideooutgpu.cpp` -/

/-- A `VideoFrame*`: the address of a frame.  The null pointer is `none` of
`Option FramePtr`; the queues only hold frames. -/
abbrev FramePtr := Nat

/-- The enum `VideoFrameType` (the `codec` member of a `VideoFrame`), as its numeric
value; it is declared in `mythframe.h`, outside the sources. -/
abbrev VideoFrameType := Int

/-- The part of the class `VideoBuffers` (declared in `videobuffers.h`, outside the
sources) that `MythVideoOutputGPU::DoneDisplayingFrame` touches: the `pause` and
`used` queues, head first, and the frames handed back to the decoder pool through
`VideoBuffers::DoneDisplayingFrame`, in the order of the calls. -/
structure VideoBuffers where
  m_pause : List FramePtr := []
  m_used : List FramePtr := []
  released : List FramePtr := []
deriving DecidableEq, Repr

/-- `VideoBuffers::Enqueue(kVideoBuffer_pause, Frame)`: the frame goes to the tail. -/
def VideoBuffers.EnqueuePause (vb : VideoBuffers) (Frame : FramePtr) : VideoBuffers :=
  { vb with m_pause := vb.m_pause ++ [Frame] }

/-- `VideoBuffers::Contains(kVideoBuffer_used, Frame)`. -/
def VideoBuffers.ContainsUsed (vb : VideoBuffers) (Frame : FramePtr) : Bool :=
  vb.m_used.contains Frame

/-- `VideoBuffers::Remove(kVideoBuffer_used, Frame)`: the frame leaves the queue, the
other frames keep their order. -/
def VideoBuffers.RemoveUsed (vb : VideoBuffers) (Frame : FramePtr) : VideoBuffers :=
  { vb with m_used := vb.m_used.filter (fun f => f != Frame) }

/-- `VideoBuffers::DoneDisplayingFrame(frame)`: the frame is handed back to the decoder
pool.  Only the hand-over is recorded. -/
def VideoBuffers.DoneDisplayingFrame (vb : VideoBuffers) (frame : FramePtr) : VideoBuffers :=
  { vb with released := vb.released ++ [frame] }

/-- The loop of `MythVideoOutputGPU::DoneDisplayingFrame` (mythvideooutgpu.cpp lines
175-180) on the content `pause` of the pause queue:
`while (Size(pause)) { frame = Dequeue(pause); if (!retain || (retain && (frame != Frame)))
release.append(frame); }`.  Each round takes the head of the queue.  The result is the
queue after the loop and the `release` vector. -/
def drainPause (retain : Bool) (Frame : FramePtr) :
    List FramePtr → List FramePtr → List FramePtr × List FramePtr
  | [], release => ([], release)
  | frame :: pause, release =>
      if !retain || (retain && (frame != Frame)) then
        drainPause retain Frame pause (release ++ [frame])
      else
        drainPause retain Frame pause release

/-- `MythVideoOutputGPU::DoneDisplayingFrame` (mythvideooutgpu.cpp lines 166-196) on the
member `m_videoBuffers`.  `format_is_hw` (a helper of `mythframe.h`) and the `codec`
member of each frame are parameters. -/
def DoneDisplayingFrame (format_is_hw : VideoFrameType → Bool) (codec : FramePtr → VideoFrameType)
    (m_videoBuffers : VideoBuffers) (Frame : Option FramePtr) : VideoBuffers :=
  match Frame with
  | none => m_videoBuffers
  | some Frame =>
      let retain := format_is_hw (codec Frame)
      let drained := drainPause retain Frame m_videoBuffers.m_pause []
      let vb1 : VideoBuffers := { m_videoBuffers with m_pause := drained.1 }
      let release := drained.2
      let vb2 :=
        if retain then
          let vb := vb1.EnqueuePause Frame
          if vb.ContainsUsed Frame then vb.RemoveUsed Frame else vb
        else vb1
      let release := if retain then release else release ++ [Frame]
      release.foldl VideoBuffers.DoneDisplayingFrame vb2

/-! ## Input changes -/

/-- A `QSize`. -/
structure QSize where
  width : Int
  height : Int
deriving DecidableEq, Repr

/-- The enum `MythCodecID`, as its numeric value (declared in `mythcodecid.h`, outside
the sources). -/
abbrev MythCodecID := Nat

/-- The enumerator `kCodec_NONE`, the first of `MythCodecID`. -/
def kCodec_NONE : MythCodecID := 0

/-- A `float`, identified by its bit pattern: `InputChanged` stores and copies the
aspect ratio and never computes with it. -/
structure CFloat where
  bits : Nat
deriving DecidableEq, Repr

/-- The members of `MythVideoOutputGPU` that `InputChanged` reads or writes.  The first
four are the values behind `GetVideoDim()`, `GetVideoDispDim()`, `GetVideoAspect()` of
the base class `MythVideoBounds` and `m_videoCodecID` of `MythVideoOutput`. -/
structure MythVideoOutputGPU where
  m_videoDim : QSize
  m_videoDispDim : QSize
  m_videoAspect : CFloat
  m_videoCodecID : MythCodecID
  m_newCodecId : MythCodecID
  m_newVideoDim : QSize
  m_newVideoDispDim : QSize
  m_newAspect : CFloat
  m_newFrameRate : Bool
  m_buffersCreated : Bool
  m_maxReferenceFrames : Int
  m_videoBuffers : VideoBuffers
deriving DecidableEq, Repr

/-- The values `InputChanged` compares a request against (mythvideooutgpu.cpp lines
240-252): those of the pending change when `m_newCodecId != kCodec_NONE`, the current
ones otherwise. -/
def currentvideodim (s : MythVideoOutputGPU) : QSize :=
  if s.m_newCodecId != kCodec_NONE then s.m_newVideoDim else s.m_videoDim

/-- See `currentvideodim`. -/
def currentvideodispdim (s : MythVideoOutputGPU) : QSize :=
  if s.m_newCodecId != kCodec_NONE then s.m_newVideoDispDim else s.m_videoDispDim

/-- See `currentvideodim`. -/
def currentcodec (s : MythVideoOutputGPU) : MythCodecID :=
  if s.m_newCodecId != kCodec_NONE then s.m_newCodecId else s.m_videoCodecID

/-- See `currentvideodim`. -/
def currentaspect (s : MythVideoOutputGPU) : CFloat :=
  if s.m_newCodecId != kCodec_NONE then s.m_newAspect else s.m_videoAspect

/-- The result of `InputChanged`: the returned `bool`, the reference argument
`AspectOnly` after the call, and the object after the call. -/
structure InputChangedResult where
  ret : Bool
  AspectOnly : Bool
  state : MythVideoOutputGPU
deriving DecidableEq, Repr

/-- `MythVideoOutputGPU::InputChanged` (mythvideooutgpu.cpp lines 235-291).
`DiscardAndRecreate` is `VideoBuffers::DiscardAndRecreate` (outside the sources): it
returns whether the buffers were recreated, and the buffers afterwards.  The log line
is left out. -/
def InputChanged (DiscardAndRecreate : VideoBuffers → MythCodecID → QSize → Int → Bool × VideoBuffers)
    (s : MythVideoOutputGPU) (VideoDim VideoDispDim : QSize) (Aspect : CFloat)
    (CodecId : MythCodecID) (AspectOnly : Bool) (ReferenceFrames : Int) (ForceChange : Bool) :
    InputChangedResult :=
  let cidchanged := CodecId != currentcodec s
  let reschanged := VideoDispDim != currentvideodispdim s
  let refschanged := s.m_maxReferenceFrames != ReferenceFrames
  if !(cidchanged || reschanged || refschanged || ForceChange) then
    { ret := true, AspectOnly := true, state := s }
  else
    let s1 := { s with m_maxReferenceFrames := ReferenceFrames }
    let recreated := DiscardAndRecreate s1.m_videoBuffers CodecId VideoDim s1.m_maxReferenceFrames
    let s2 := { s1 with m_buffersCreated := recreated.1, m_videoBuffers := recreated.2 }
    if !s2.m_buffersCreated then
      { ret := false, AspectOnly := AspectOnly, state := s2 }
    else
      { ret := true, AspectOnly := AspectOnly,
        state := { s2 with m_newCodecId := CodecId, m_newVideoDim := VideoDim,
                           m_newVideoDispDim := VideoDispDim, m_newAspect := Aspect } }

/-! ## Sample frames and objects -/

/-- A sample `format_is_hw`: the positive frame types are the hardware formats. -/
def sampleFormatIsHw (t : VideoFrameType) : Bool := decide (0 < t)

/-- A sample frame memory: the frames at addresses below 100 have the hardware frame
type 5, the others the software frame type 0. -/
def sampleCodec (f : FramePtr) : VideoFrameType := if f < 100 then 5 else 0

/-- Sample buffers: three frames in the pause queue, two in the used queue. -/
def sampleBuffers : VideoBuffers := { m_pause := [7, 3, 9], m_used := [3, 5], released := [] }

/-- A sample output object with no input change pending. -/
def sampleOutput : MythVideoOutputGPU :=
  { m_videoDim := ⟨1920, 1088⟩
    m_videoDispDim := ⟨1920, 1080⟩
    m_videoAspect := ⟨16⟩
    m_videoCodecID := 7
    m_newCodecId := kCodec_NONE
    m_newVideoDim := ⟨-1, -1⟩
    m_newVideoDispDim := ⟨-1, -1⟩
    m_newAspect := ⟨0⟩
    m_newFrameRate := false
    m_buffersCreated := true
    m_maxReferenceFrames := 4
    m_videoBuffers := sampleBuffers }

end MythGPU

namespace MythFrontend

/-! ## `action.h` -/

/-- `QStringList::removeAll(key)`: every occurrence of `key` leaves the list; the result
is the number of removed entries and the list afterwards. -/
def removeAll (keys : List String) (key : String) : Nat × List String :=
  (keys.count key, keys.filter (fun k => k != key))

/-- The class `Action` (action.h lines 40-76): a description and the keys bound to the
action. -/
structure Action where
  m_description : String
  m_keys : List String
deriving DecidableEq, Repr

/-- The constructor `Action::Action(QString description)` (action.h line 44): `m_keys` is
default-constructed, the empty list. -/
def Action.ctor (description : String) : Action :=
  { m_description := description, m_keys := [] }

/-- `Action::RemoveKey` (action.h lines 52-55): `return m_keys.removeAll(key) != 0;`.  The
result is the returned `bool` and the action afterwards. -/
def Action.RemoveKey (a : Action) (key : String) : Bool × Action :=
  ((removeAll a.m_keys key).1 != 0, { a with m_keys := (removeAll a.m_keys key).2 })

/-- `Action::GetDescription` (action.h line 59). -/
def Action.GetDescription (a : Action) : String := a.m_description

/-- `Action::GetKeys` (action.h line 62). -/
def Action.GetKeys (a : Action) : List String := a.m_keys

/-- `Action::GetKeyString` (action.h line 64): `m_keys.join(",")`. -/
def Action.GetKeyString (a : Action) : String := String.intercalate "," a.m_keys

/-- `Action::IsEmpty` (action.h line 66): `m_keys.empty()`. -/
def Action.IsEmpty (a : Action) : Bool := a.m_keys.isEmpty

/-- The class `ActionID` (action.h lines 84-114). -/
structure ActionID where
  m_context : String
  m_action : String
deriving DecidableEq, Repr

/-- `ActionID::GetContext` (action.h line 100). -/
def ActionID.GetContext (a : ActionID) : String := a.m_context

/-- `ActionID::GetAction` (action.h line 103). -/
def ActionID.GetAction (a : ActionID) : String := a.m_action

/-- `ActionID::operator==` (action.h lines 105-109). -/
def ActionID.operator_eq (a other : ActionID) : Bool :=
  (a.m_action == other.m_action) && (a.m_context == other.m_context)

/-! ## `audiogeneralsettings.cpp`: the speaker test -/

/-- The local array `int smptelayout[7][8]` of `AudioTestThread::run`
(audiogeneralsettings.cpp lines 555-563); the elements without an initialiser are
zero. -/
def smptelayout : List (List Int) :=
  [ [0, 1, 0, 0, 0, 0, 0, 0],
    [0, 0, 0, 0, 0, 0, 0, 0],
    [0, 0, 0, 0, 0, 0, 0, 0],
    [0, 0, 0, 0, 0, 0, 0, 0],
    [0, 2, 1, 5, 4, 3, 0, 0],
    [0, 0, 0, 0, 0, 0, 0, 0],
    [0, 2, 1, 7, 5, 4, 6, 3] ]

/-- The read `smptelayout[row][col]`: `none` when an index is outside the array
`[7][8]`. -/
def smptelayoutAt (row col : Int) : Option Int :=
  if 0 ≤ row ∧ row < 7 ∧ 0 ≤ col ∧ col < 8 then
    some ((smptelayout.getD row.toNat []).getD col.toNat 0)
  else none

/-- One pass of the `for` loop of `AudioTestThread::run` (audiogeneralsettings.cpp lines
572-583 and 648) that is not interrupted: the values of
`current = smptelayout[m_channels - 2][i]` for `i = begin, ..., end - 1`, where
`begin = 0, end = m_channels`, or `begin = m_channel, end = m_channel + 1` when a
single channel is selected (`m_channel >= 0`). -/
def runPass (m_channels m_channel : Int) : List (Option Int) :=
  let begin_ : Int := if m_channel ≥ 0 then m_channel else 0
  let end_ : Int := if m_channel ≥ 0 then m_channel + 1 else m_channels
  (List.range (end_ - begin_).toNat).map fun k =>
    smptelayoutAt (m_channels - 2) (begin_ + (k : Int))

/-- The speaker announced for `current` by the `switch` of `AudioTestThread::run`
(audiogeneralsettings.cpp lines 589-621). -/
def channelName (m_channels current : Int) : String :=
  if current = 0 then "frontleft"
  else if current = 1 then "frontright"
  else if current = 2 then "center"
  else if current = 3 then "lfe"
  else if current = 4 then (if m_channels = 6 then "surroundleft" else "rearleft")
  else if current = 5 then (if m_channels = 6 then "surroundright" else "rearright")
  else if current = 6 then "surroundleft"
  else if current = 7 then "surroundright"
  else ""

/-! ## `audiogeneralsettings.cpp`: the device rescan -/

/-- The part of `AudioOutputSettings` (declared outside the sources) that `AudioRescan`
reads: the answer of `IsInvalid()`. -/
structure AudioOutputSettings where
  m_invalid : Bool
deriving DecidableEq, Repr

/-- `AudioOutput::AudioDeviceConfig` (declared outside the sources): a device name, its
description and its settings. -/
structure AudioDeviceConfig where
  name : String
  desc : String
  settings : AudioOutputSettings
deriving DecidableEq, Repr

/-- The map `audiodevs` from device names to device configurations, as an association
list with at most one entry per key. -/
abbrev ADCMap := List (String × AudioDeviceConfig)

/-- `QMap::insert(key, value)`: the value of an existing key is replaced. -/
def ADCMap.insert (m : ADCMap) (key : String) (value : AudioDeviceConfig) : ADCMap :=
  (key, value) :: m.filter (fun p => p.1 != key)

/-- `QMap::contains(key)`. -/
def ADCMap.contains (m : ADCMap) (key : String) : Bool := (m.lookup key).isSome

/-- The members of `AudioConfigSettings` that `AudioRescan` uses.  `slotlock` is true
while the mutex is held; `widgets` stands for the child widgets (the output device
combo box among them), whose class is declared outside the sources; `popups` are the
warnings shown so far. -/
structure AudioConfigSettings (W : Type) where
  slotlock : Bool
  audiodevs : ADCMap
  devices : List AudioDeviceConfig
  widgets : W
  popups : List String

/-- What `AudioRescan` calls outside the sources: the output scan
`AudioOutput::GetOutputList()`, the probe `AudioOutput::GetAudioDeviceConfig(name, name,
true)`, and on the widgets `m_OutputDevice->getValue()`, the refresh of the combo box
selections `m_OutputDevice->AudioRescan()` from the device vector, whether all widgets
exist, and the widget updates of `UpdateCapabilities`. -/
structure AudioEnv (W : Type) where
  GetOutputList : List AudioDeviceConfig
  GetAudioDeviceConfig : String → AudioDeviceConfig
  getValue : W → String
  comboAudioRescan : W → List AudioDeviceConfig → W
  widgetsSet : W → Bool
  updateWidgets : W → ADCMap → W

/-- `AudioConfigSettings::UpdateCapabilities` (audiogeneralsettings.cpp lines 246-351) as
far as the members of `AudioConfigSettings` go: it returns at once when a widget is
missing or the lock is held; otherwise it takes the lock, updates widgets only, and
releases the lock.  The returned settings are left out. -/
def UpdateCapabilities {W : Type} (env : AudioEnv W) (s : AudioConfigSettings W) :
    AudioConfigSettings W :=
  if !env.widgetsSet s.widgets then s
  else if s.slotlock then s
  else { s with widgets := env.updateWidgets s.widgets s.audiodevs }

/-- The loop `for (it = list->begin(); it != list->end(); it++) audiodevs.insert(it->name,
*it);` (audiogeneralsettings.cpp lines 207-208). -/
def insertAll (m : ADCMap) (list : List AudioDeviceConfig) : ADCMap :=
  list.foldl (fun acc it => ADCMap.insert acc it.name it) m

/-- `AudioConfigSettings::AudioRescan` (audiogeneralsettings.cpp lines 197-234). -/
def AudioRescan {W : Type} (env : AudioEnv W) (s : AudioConfigSettings W) :
    AudioConfigSettings W :=
  if s.slotlock then s
  else
    let s1 := { s with slotlock := true }
    let list := env.GetOutputList
    let s2 := { s1 with audiodevs := insertAll [] list, devices := list }
    let name := env.getValue s2.widgets
    let s3 :=
      if !ADCMap.contains s2.audiodevs name then
        let adc := env.GetAudioDeviceConfig name
        let s2' :=
          if adc.settings.m_invalid then
            { s2 with popups := s2.popups ++ [name ++ " is invalid or not useable."] }
          else s2
        { s2' with audiodevs := ADCMap.insert s2'.audiodevs name adc
                   devices := s2'.devices ++ [adc] }
      else s2
    let s4 := { s3 with widgets := env.comboAudioRescan s3.widgets s3.devices }
    let s5 := { s4 with slotlock := false }
    UpdateCapabilities env s5

/-! ## Sample audio devices -/

/-- A sample scan result: two devices. -/
def sampleScan : List AudioDeviceConfig :=
  [ { name := "ALSA:default", desc := "Default", settings := { m_invalid := false } },
    { name := "ALSA:hdmi", desc := "HDMI", settings := { m_invalid := false } } ]

/-- A sample environment whose widgets are just the selected device name. -/
def sampleEnv : AudioEnv String :=
  { GetOutputList := sampleScan
    GetAudioDeviceConfig := fun name =>
      { name := name, desc := "custom", settings := { m_invalid := true } }
    getValue := fun w => w
    comboAudioRescan := fun w _ => w
    widgetsSet := fun _ => true
    updateWidgets := fun w _ => w }

/-- A sample settings object with the custom device `ALSA:plughw:7` selected. -/
def sampleSettings : AudioConfigSettings String :=
  { slotlock := false, audiodevs := [], devices := [], widgets := "ALSA:plughw:7",
    popups := [] }

end MythFrontend

/-! # Theorems -/

namespace MythBD

/-- Polling `TitleChanged` keeps a cleared title-changed flag cleared. -/
theorem pollTitleChanged_flag (k : Nat) :
    ∀ u : MythBDBuffer, u.m_titleChanged = false →
      (pollTitleChanged k u).m_titleChanged = false := by
  induction k with
  | zero => intro u hu; exact hu
  | succ k ih => intro u _; exact ih _ rfl

/-- Draining events leaves the engine handle as it was. -/
theorem HandleBDEvent_bdnav (s : MythBDBuffer) (e : PendingEvent) :
    (HandleBDEvent s e).m_bdnav = s.m_bdnav := by
  cases e <;> rfl

/-- Draining a list of events leaves the engine handle as it was. -/
theorem foldl_HandleBDEvent_bdnav (events : List PendingEvent) :
    ∀ s : MythBDBuffer, (events.foldl HandleBDEvent s).m_bdnav = s.m_bdnav := by
  induction events with
  | nil => intro s; rfl
  | cons e es ih => intro s; rw [List.foldl_cons, ih, HandleBDEvent_bdnav]

/-- C2: whatever the process state before the call (Wait and Reprocess included) and
whatever events the call drains, a `SeekInternal` that succeeds leaves the process
state at `PROCESS_NORMAL`. -/
theorem SeekInternal_success_processState (engineSeek : Int → Option Nat) (s : MythBDBuffer)
    (events : List PendingEvent) (Position : Int) (whence : Whence)
    (h : succeeded (SeekInternal engineSeek s events Position whence).1 = true) :
    (SeekInternal engineSeek s events Position whence).2.m_processState
      = processState_t.PROCESS_NORMAL := by
  unfold SeekInternal at h ⊢
  cases hb : s.m_bdnav with
  | none => simp [hb, succeeded] at h
  | some d =>
      simp only [hb] at h ⊢
      cases hseek : engineSeek (seekTarget (events.foldl HandleBDEvent s) Position whence) with
      | none => simp [hseek, succeeded] at h
      | some pos => simp [hseek]

/-- Witness of C2: a seek to offset 6144 of a session waiting in a still frame, which
the engine accepts. -/
theorem SeekInternal_success_processState_witness :
    succeeded (SeekInternal (fun t => some t.toNat) waitingSession [] 6144 Whence.SEEK_SET).1
      = true ∧
    (SeekInternal (fun t => some t.toNat) waitingSession [] 6144 Whence.SEEK_SET).2.m_processState
      = processState_t.PROCESS_NORMAL :=
  ⟨rfl, SeekInternal_success_processState (fun t => some t.toNat) waitingSession [] 6144
    Whence.SEEK_SET rfl⟩

/-- C3: on a session with `n` titles, `SwitchTitle(Index)` with `Index >= n` fails (with
`NotFound` when the session is open, `Closed` otherwise), forwards nothing to the
engine, and leaves the session, hence the current title index, unchanged. -/
theorem SwitchTitle_out_of_range (s : MythBDBuffer) (Index : Nat)
    (h : s.m_numTitles ≤ Index) :
    succeeded (SwitchTitle s Index).1 = false ∧
    (SwitchTitle s Index).1
      = (if s.m_bdnav.isSome then .error BDError.NotFound else .error BDError.Closed) ∧
    (SwitchTitle s Index).2 = s ∧
    (SwitchTitle s Index).2.m_currentTitle = s.m_currentTitle := by
  unfold SwitchTitle
  cases hb : s.m_bdnav with
  | none => simp [succeeded]
  | some d => simp [succeeded, Nat.not_lt.mpr h]

/-- Witness of C3: `SwitchTitle(5)` on a disc with three titles. -/
theorem SwitchTitle_out_of_range_witness :
    threeTitleSession.m_numTitles = 3 ∧
    succeeded (SwitchTitle threeTitleSession 5).1 = false ∧
    (SwitchTitle threeTitleSession 5).1 = .error BDError.NotFound ∧
    (SwitchTitle threeTitleSession 5).2.m_currentTitle = threeTitleSession.m_currentTitle := by
  have h := SwitchTitle_out_of_range threeTitleSession 5 (by decide)
  exact ⟨by decide, h.1, by rw [h.2.1]; rfl, h.2.2.2⟩

/-- The scan for the longest title returns an index below the end of the scan
whenever its starting candidate is. -/
theorem longestFrom_lt (ds : List Nat) :
    ∀ i best bestDur, best < i + ds.length → longestFrom ds i best bestDur < i + ds.length := by
  induction ds with
  | nil => intro i best bestDur h; simpa [longestFrom] using h
  | cons d ds ih =>
      intro i best bestDur h
      simp only [longestFrom, List.length_cons]
      split
      · have := ih (i + 1) i d (by omega)
        omega
      · have := ih (i + 1) best bestDur (by simp only [List.length_cons] at h; omega)
        omega

/-- The main title of a disc with at least one title is one of its titles. -/
theorem selectMainTitle_lt (d : BDDisc) (h : d.numTitles ≠ 0) :
    selectMainTitle d < d.numTitles := by
  have hl : longestFrom d.titleDurations 0 0 0 < d.numTitles := by
    have := longestFrom_lt d.titleDurations 0 0 0 (by unfold BDDisc.numTitles at h; omega)
    simpa [BDDisc.numTitles] using this
  unfold selectMainTitle
  split
  · split
    · assumption
    · exact hl
  · exact hl

/-- A wipe command leaves a list of uninitialised planes as it is. -/
theorem modify_replicate_none (f : Option MythBDOverlay → Option MythBDOverlay)
    (hf : f none = none) (n : Nat) :
    ∀ plane : Nat, (List.replicate n (none : Option MythBDOverlay)).modify f plane
      = List.replicate n none := by
  induction n with
  | zero => intro plane; cases plane <;> rfl
  | succ n ih =>
      intro plane
      cases plane with
      | zero => simp [List.replicate_succ, hf]
      | succ plane => simp [List.replicate_succ, ih plane]

/-- C6: a wipe-region command on an empty overlay plane is a no-op.  For every
rectangle, wiping the default `MythBDOverlay` (null image, pts -1, x = y = 0) returns
the default overlay, its image is still null, and wiping again changes nothing; the
same holds for every overlay whose image is null, and a wipe command submitted to any
number of uninitialised planes leaves all of them uninitialised. -/
theorem Wipe_empty_plane (Left Top Width Height : Int) :
    MythBDOverlay.Wipe {} Left Top Width Height = {} ∧
    (MythBDOverlay.Wipe {} Left Top Width Height).m_image = none ∧
    MythBDOverlay.Wipe (MythBDOverlay.Wipe {} Left Top Width Height) Left Top Width Height
      = MythBDOverlay.Wipe {} Left Top Width Height ∧
    (∀ pts x y : Int,
      MythBDOverlay.Wipe { m_image := none, m_pts := pts, m_x := x, m_y := y }
        Left Top Width Height
        = { m_image := none, m_pts := pts, m_x := x, m_y := y }) ∧
    ∀ n plane : Nat,
      SubmitOverlay (List.replicate n none) (.wipe plane Left Top Width Height)
        = List.replicate n none :=
  ⟨rfl, rfl, rfl, fun _ _ _ => rfl, fun n plane => modify_replicate_none _ rfl n plane⟩

/-- The session invariant only looks at the handle, the title count, and the current
title and playlist. -/
theorem sessionInvariant_congr (s t : MythBDBuffer) (h1 : t.m_bdnav = s.m_bdnav)
    (h2 : t.m_numTitles = s.m_numTitles) (h3 : t.m_currentTitle = s.m_currentTitle)
    (h4 : t.m_currentPlaylist = s.m_currentPlaylist) (hs : sessionInvariant s) :
    sessionInvariant t := by
  unfold sessionInvariant titleInvariant IsOpenOn at *
  rw [h1, h2, h3, h4]
  exact hs

/-- The freshly constructed session satisfies the session invariant. -/
theorem sessionInvariant_fresh : sessionInvariant MythBDBuffer.fresh := by
  refine ⟨⟨by decide, by decide⟩, ?_⟩
  intro d hd
  have hd' : (none : Option BDDisc) = some d := hd
  cases hd'

/-- An event of the open disc keeps the session invariant. -/
theorem HandleBDEvent_inv (d : BDDisc) (s : MythBDBuffer) (e : PendingEvent)
    (hb : s.m_bdnav = some d) (hs : sessionInvariant s) (he : eventOfDisc d e) :
    sessionInvariant (HandleBDEvent s e) := by
  obtain ⟨_, hopen⟩ := hs
  obtain ⟨_, hn, ht0, ht1, hp0, hp1⟩ := hopen d hb
  have hcongr := sessionInvariant_congr s
  have hs : sessionInvariant s := ⟨⟨by omega, ht1⟩, hopen⟩
  cases e with
  | titleChanged title =>
      have ht : title < d.numTitles := he
      refine ⟨⟨?_, ?_⟩, ?_⟩
      · show (-1 : Int) ≤ (title : Int)
        omega
      · show (title : Int) < (s.m_numTitles : Int)
        omega
      · intro d' hd'
        have hd'' : s.m_bdnav = some d' := hd'
        have hdd : d' = d := by rw [hb] at hd''; exact (Option.some.inj hd'').symm
        subst hdd
        refine ⟨hd', hn, ?_, ?_, hp0, hp1⟩
        · show (0 : Int) ≤ (title : Int)
          omega
        · show (title : Int) < (s.m_numTitles : Int)
          omega
  | playlistStarted playlist =>
      have hp : playlist < d.numPlaylists := he
      refine ⟨⟨by show (-1 : Int) ≤ s.m_currentTitle; omega, ht1⟩, ?_⟩
      intro d' hd'
      have hd'' : s.m_bdnav = some d' := hd'
      have hdd : d' = d := by rw [hb] at hd''; exact (Option.some.inj hd'').symm
      subst hdd
      refine ⟨hd', hn, ht0, ht1, ?_, ?_⟩
      · show (0 : Int) ≤ (playlist : Int)
        omega
      · show (playlist : Int) < (d'.numPlaylists : Int)
        omega
  | none => exact hs
  | playitemChanged _ => exact hcongr _ rfl rfl rfl rfl hs
  | stillFrameEntered _ => exact hcongr _ rfl rfl rfl rfl hs
  | stillFrameCleared => exact hcongr _ rfl rfl rfl rfl hs
  | menuPopup _ => exact hcongr _ rfl rfl rfl rfl hs
  | menuOverlayUpdate _ => exact hcongr _ rfl rfl rfl rfl hs
  | menuARGBOverlayUpdate _ => exact hcongr _ rfl rfl rfl rfl hs
  | navigationError _ => exact hcongr _ rfl rfl rfl rfl hs
  | endOfStream => exact hs

/-- Draining events of the open disc keeps the session invariant. -/
theorem foldl_HandleBDEvent_inv (d : BDDisc) (events : List PendingEvent) :
    ∀ s : MythBDBuffer, s.m_bdnav = some d → sessionInvariant s →
      (∀ e ∈ events, eventOfDisc d e) → sessionInvariant (events.foldl HandleBDEvent s) := by
  induction events with
  | nil => intro s _ hs _; exact hs
  | cons e es ih =>
      intro s hb hs hev
      rw [List.foldl_cons]
      refine ih _ ?_ ?_ ?_
      · rw [HandleBDEvent_bdnav]; exact hb
      · exact HandleBDEvent_inv d s e hb hs (hev e (List.mem_cons_self e es))
      · exact fun e' he' => hev e' (List.mem_cons_of_mem e he')

/-- A successful open establishes the session invariant. -/
theorem OpenFile_inv (s : MythBDBuffer) (disc : Option BDDisc) (hs : sessionInvariant s) :
    sessionInvariant (OpenFile s disc).2 := by
  unfold OpenFile
  cases disc with
  | none => exact hs
  | some d =>
      by_cases hz : d.numTitles = 0 ∨ d.numPlaylists = 0
      · simp only [if_pos hz]; exact hs
      · simp only [if_neg hz]
        have hz1 : d.numTitles ≠ 0 := fun h => hz (Or.inl h)
        have hz2 : d.numPlaylists ≠ 0 := fun h => hz (Or.inr h)
        have hm := selectMainTitle_lt d hz1
        refine ⟨⟨?_, ?_⟩, ?_⟩
        · show (-1 : Int) ≤ (selectMainTitle d : Int)
          omega
        · show (selectMainTitle d : Int) < (d.numTitles : Int)
          omega
        · intro d' hd'
          have hdd : d = d' := Option.some.inj hd'
          subst hdd
          refine ⟨rfl, rfl, ?_, ?_, ?_, ?_⟩
          · show (0 : Int) ≤ (selectMainTitle d : Int)
            omega
          · show (selectMainTitle d : Int) < (d.numTitles : Int)
            omega
          · show (0 : Int) ≤ 0
            omega
          · show (0 : Int) < (d.numPlaylists : Int)
            omega

/-- A restore keeps the session invariant. -/
theorem RestoreBDStateSnapshot_inv (s : MythBDBuffer) (token : BDStateSnapshot)
    (hs : sessionInvariant s) : sessionInvariant (RestoreBDStateSnapshot s token).2 := by
  unfold RestoreBDStateSnapshot
  cases hb : s.m_bdnav with
  | none => exact hs
  | some d =>
      by_cases hin : tokenMatches d token
      · simp only [if_pos hin]
        obtain ⟨_, _, h0, h1, h2, h3⟩ := hin
        have e1 : token.title.toNat < d.numTitles := by omega
        have e2 : token.playlist.toNat < d.numPlaylists := by omega
        have i1 := HandleBDEvent_inv d s (.titleChanged token.title.toNat) hb hs e1
        have i2 := HandleBDEvent_inv d _ (.playlistStarted token.playlist.toNat)
          (by rw [HandleBDEvent_bdnav]; exact hb) i1 e2
        exact sessionInvariant_congr _ _ rfl rfl rfl rfl i2
      · simp only [if_neg hin]; exact hs

/-- Every operation, under the engine contract, keeps the session invariant. -/
theorem step_inv (s : MythBDBuffer) (op : Op) (hs : sessionInvariant s)
    (hc : engineContract s op) : sessionInvariant (step s op) := by
  cases op with
  | openFile disc => exact OpenFile_inv s disc hs
  | close =>
      refine ⟨hs.1, ?_⟩
      intro d hd
      have hd' : (none : Option BDDisc) = some d := hd
      cases hd'
  | switchTitle Index =>
      show sessionInvariant (SwitchTitle s Index).2
      unfold SwitchTitle
      cases s.m_bdnav with
      | none => exact hs
      | some d => dsimp only; split <;> exact hs
  | switchPlaylist Index =>
      show sessionInvariant (SwitchPlaylist s Index).2
      unfold SwitchPlaylist
      cases s.m_bdnav with
      | none => exact hs
      | some d => dsimp only; split <;> exact hs
  | switchAngle Angle =>
      show sessionInvariant (SwitchAngle s Angle).2
      unfold SwitchAngle
      cases s.m_bdnav with
      | none => exact hs
      | some d => dsimp only; split <;> exact hs
  | titleChanged => exact sessionInvariant_congr s _ rfl rfl rfl rfl hs
  | seek engineSeek events Position whence =>
      show sessionInvariant (SeekInternal engineSeek s events Position whence).2
      unfold SeekInternal
      cases hb : s.m_bdnav with
      | none => exact hs
      | some d =>
          have hi := foldl_HandleBDEvent_inv d events s hb hs (hc d hb)
          dsimp only
          cases engineSeek (seekTarget (events.foldl HandleBDEvent s) Position whence) with
          | none => exact hi
          | some pos => exact sessionInvariant_congr _ _ rfl rfl rfl rfl hi
  | read events firstTry retry =>
      show sessionInvariant (SafeRead s events firstTry retry).2
      unfold SafeRead
      cases hb : s.m_bdnav with
      | none => exact hs
      | some d =>
          have hi := foldl_HandleBDEvent_inv d events s hb hs (hc d hb)
          dsimp only
          split
          · exact hi
          · cases firstTry with
            | some n => exact sessionInvariant_congr _ _ rfl rfl rfl rfl hi
            | none =>
                cases retry with
                | some n => exact sessionInvariant_congr _ _ rfl rfl rfl rfl hi
                | none => exact sessionInvariant_congr _ _ rfl rfl rfl rfl hi
  | skipWait => exact sessionInvariant_congr s _ rfl rfl rfl rfl hs
  | snapshot => exact hs
  | restore token => exact RestoreBDStateSnapshot_inv s token hs
  | submitOverlay cmd => exact sessionInvariant_congr s _ rfl rfl rfl rfl hs
  | clearOverlays => exact sessionInvariant_congr s _ rfl rfl rfl rfl hs

/-- Every reachable session satisfies the session invariant. -/
theorem sessionInvariant_of_reachable (s : MythBDBuffer) (h : Reachable s) :
    sessionInvariant s := by
  induction h with
  | fresh => exact sessionInvariant_fresh
  | step s op _ hc ih => exact step_inv s op ih hc

end MythBD

namespace MythGPU

/-- On a queue that holds the frame at most once, `RemoveUsed` is the removal of its
first occurrence. -/
theorem RemoveUsed_eq_erase (vb : VideoBuffers) (Frame : FramePtr) (h : vb.m_used.Nodup) :
    (vb.RemoveUsed Frame).m_used = vb.m_used.erase Frame := by
  show vb.m_used.filter (fun f => f != Frame) = vb.m_used.erase Frame
  rw [List.Nodup.erase_eq_filter h]

/-- The loop for a retained frame empties the pause queue and collects every queued
frame other than `Frame`, in queue order. -/
theorem drainPause_retain (Frame : FramePtr) (pause : List FramePtr) :
    ∀ release : List FramePtr,
      drainPause true Frame pause release
        = ([], release ++ pause.filter (fun f => f != Frame)) := by
  induction pause with
  | nil => intro release; simp [drainPause]
  | cons frame pause ih =>
      intro release
      by_cases hf : frame = Frame
      · simp [drainPause, hf, ih]
      · simp [drainPause, hf, ih]

/-- The loop for a frame that is not retained empties the pause queue and collects
every queued frame, in queue order. -/
theorem drainPause_release (Frame : FramePtr) (pause : List FramePtr) :
    ∀ release : List FramePtr,
      drainPause false Frame pause release = ([], release ++ pause) := by
  induction pause with
  | nil => intro release; simp [drainPause]
  | cons frame pause ih => intro release; simp [drainPause, ih]

/-- Handing a list of frames back to the pool appends them to the record and leaves
the queues alone. -/
theorem foldl_DoneDisplayingFrame (release : List FramePtr) :
    ∀ vb : VideoBuffers,
      release.foldl VideoBuffers.DoneDisplayingFrame vb
        = { vb with released := vb.released ++ release } := by
  induction release with
  | nil => intro vb; simp
  | cons frame release ih =>
      intro vb
      rw [List.foldl_cons, ih]
      simp [VideoBuffers.DoneDisplayingFrame]

/-- `DoneDisplayingFrame` on a hardware frame, in closed form. -/
theorem DoneDisplayingFrame_hw (format_is_hw : VideoFrameType → Bool)
    (codec : FramePtr → VideoFrameType) (vb : VideoBuffers) (Frame : FramePtr)
    (h : format_is_hw (codec Frame) = true) :
    DoneDisplayingFrame format_is_hw codec vb (some Frame)
      = { m_pause := [Frame]
          m_used := vb.m_used.filter (fun f => f != Frame)
          released := vb.released ++ vb.m_pause.filter (fun f => f != Frame) } := by
  simp only [DoneDisplayingFrame, h, drainPause_retain, foldl_DoneDisplayingFrame, if_true,
    List.nil_append, VideoBuffers.EnqueuePause, VideoBuffers.ContainsUsed,
    VideoBuffers.RemoveUsed]
  by_cases hc : vb.m_used.contains Frame = true
  · have hm : Frame ∈ vb.m_used := by simpa using hc
    simp [hm]
  · have hnot : Frame ∉ vb.m_used := by simpa using hc
    have hfil : vb.m_used.filter (fun f => f != Frame) = vb.m_used := by
      rw [List.filter_eq_self]
      intro a ha
      have : a ≠ Frame := fun e => hnot (e ▸ ha)
      simpa using this
    simp [hnot, hfil]

/-- `DoneDisplayingFrame` on a software frame, in closed form. -/
theorem DoneDisplayingFrame_sw (format_is_hw : VideoFrameType → Bool)
    (codec : FramePtr → VideoFrameType) (vb : VideoBuffers) (Frame : FramePtr)
    (h : format_is_hw (codec Frame) = false) :
    DoneDisplayingFrame format_is_hw codec vb (some Frame)
      = { m_pause := []
          m_used := vb.m_used
          released := vb.released ++ (vb.m_pause ++ [Frame]) } := by
  simp [DoneDisplayingFrame, h, drainPause_release, foldl_DoneDisplayingFrame,
    VideoBuffers.DoneDisplayingFrame, List.append_assoc]

/-- C8: for a non-null hardware-format frame `Frame` and any content of the pause and
used queues, after `DoneDisplayingFrame(Frame)` the pause queue is exactly `[Frame]`,
`Frame` is not in the used queue, the frames handed back to the decoder pool by the
call are the frames of the old pause queue other than `Frame`, in queue order, so
`Frame` is not among them and every other frame of the old pause queue is. -/
theorem DoneDisplayingFrame_hardware (format_is_hw : VideoFrameType → Bool)
    (codec : FramePtr → VideoFrameType) (vb : VideoBuffers) (Frame : FramePtr)
    (h : format_is_hw (codec Frame) = true) :
    (DoneDisplayingFrame format_is_hw codec vb (some Frame)).m_pause = [Frame] ∧
    Frame ∉ (DoneDisplayingFrame format_is_hw codec vb (some Frame)).m_used ∧
    (∃ handed : List FramePtr,
      (DoneDisplayingFrame format_is_hw codec vb (some Frame)).released
        = vb.released ++ handed ∧
      handed = vb.m_pause.filter (fun f => f != Frame) ∧
      Frame ∉ handed ∧
      ∀ frame ∈ vb.m_pause, frame ≠ Frame → frame ∈ handed) := by
  rw [DoneDisplayingFrame_hw format_is_hw codec vb Frame h]
  refine ⟨rfl, ?_, _, rfl, rfl, ?_, ?_⟩
  · simp [List.mem_filter]
  · simp [List.mem_filter]
  · intro frame hmem hne
    simp [List.mem_filter, hmem, hne]

/-- Witness of C8: the hardware frame 3, queued in both the pause and the used
queue. -/
theorem DoneDisplayingFrame_hardware_witness :
    sampleFormatIsHw (sampleCodec 3) = true ∧
    DoneDisplayingFrame sampleFormatIsHw sampleCodec sampleBuffers (some 3)
      = { m_pause := [3], m_used := [5], released := [7, 9] } ∧
    ((DoneDisplayingFrame sampleFormatIsHw sampleCodec sampleBuffers (some 3)).m_pause = [3] ∧
     3 ∉ (DoneDisplayingFrame sampleFormatIsHw sampleCodec sampleBuffers (some 3)).m_used ∧
     (∃ handed : List FramePtr,
       (DoneDisplayingFrame sampleFormatIsHw sampleCodec sampleBuffers (some 3)).released
         = sampleBuffers.released ++ handed ∧
       handed = sampleBuffers.m_pause.filter (fun f => f != 3) ∧
       3 ∉ handed ∧
       ∀ frame ∈ sampleBuffers.m_pause, frame ≠ 3 → frame ∈ handed)) :=
  ⟨by decide, by decide,
    DoneDisplayingFrame_hardware sampleFormatIsHw sampleCodec sampleBuffers 3 (by decide)⟩

/-- C9: for a non-null software-format frame `Frame`, `DoneDisplayingFrame(Frame)`
leaves the pause queue empty, and the frames it hands back to the decoder pool are the
frames of the old pause queue, in queue order, followed by `Frame` itself, so `Frame`
and every frame previously held in the pause queue are released; a null frame changes
nothing. -/
theorem DoneDisplayingFrame_software (format_is_hw : VideoFrameType → Bool)
    (codec : FramePtr → VideoFrameType) (vb : VideoBuffers) (Frame : FramePtr)
    (h : format_is_hw (codec Frame) = false) :
    (DoneDisplayingFrame format_is_hw codec vb (some Frame)).m_pause = [] ∧
    (∃ handed : List FramePtr,
      (DoneDisplayingFrame format_is_hw codec vb (some Frame)).released
        = vb.released ++ handed ∧
      handed = vb.m_pause ++ [Frame] ∧
      Frame ∈ handed ∧
      ∀ frame ∈ vb.m_pause, frame ∈ handed) ∧
    DoneDisplayingFrame format_is_hw codec vb none = vb := by
  rw [DoneDisplayingFrame_sw format_is_hw codec vb Frame h]
  refine ⟨rfl, ⟨_, rfl, rfl, by simp, ?_⟩, rfl⟩
  intro frame hmem
  simp [hmem]

/-- Witness of C9: the software frame 200 with three frames in the pause queue. -/
theorem DoneDisplayingFrame_software_witness :
    sampleFormatIsHw (sampleCodec 200) = false ∧
    DoneDisplayingFrame sampleFormatIsHw sampleCodec sampleBuffers (some 200)
      = { m_pause := [], m_used := [3, 5], released := [7, 3, 9, 200] } ∧
    ((DoneDisplayingFrame sampleFormatIsHw sampleCodec sampleBuffers (some 200)).m_pause = [] ∧
     (∃ handed : List FramePtr,
       (DoneDisplayingFrame sampleFormatIsHw sampleCodec sampleBuffers (some 200)).released
         = sampleBuffers.released ++ handed ∧
       handed = sampleBuffers.m_pause ++ [200] ∧
       200 ∈ handed ∧
       ∀ frame ∈ sampleBuffers.m_pause, frame ∈ handed) ∧
     DoneDisplayingFrame sampleFormatIsHw sampleCodec sampleBuffers none = sampleBuffers) :=
  ⟨by decide, by decide,
    DoneDisplayingFrame_software sampleFormatIsHw sampleCodec sampleBuffers 200 (by decide)⟩

/-- C10: aspect-ratio-only changes are a no-op.  When `CodecId` is the effective
current codec, `VideoDispDim` the effective current display dimensions,
`ReferenceFrames` equals `m_maxReferenceFrames` and `ForceChange` is false, then
`InputChanged` returns true, sets `AspectOnly`, and leaves every member as it was,
whatever `Aspect`, `VideoDim`, the incoming `AspectOnly` and the behaviour of the
buffer recreation are. -/
theorem InputChanged_aspect_only
    (DiscardAndRecreate : VideoBuffers → MythCodecID → QSize → Int → Bool × VideoBuffers)
    (s : MythVideoOutputGPU) (VideoDim VideoDispDim : QSize) (Aspect : CFloat)
    (CodecId : MythCodecID) (AspectOnly : Bool) (ReferenceFrames : Int)
    (hcodec : CodecId = currentcodec s) (hdim : VideoDispDim = currentvideodispdim s)
    (hrefs : ReferenceFrames = s.m_maxReferenceFrames) :
    InputChanged DiscardAndRecreate s VideoDim VideoDispDim Aspect CodecId AspectOnly
        ReferenceFrames false
      = { ret := true, AspectOnly := true, state := s } := by
  subst hcodec hdim hrefs
  simp [InputChanged]

/-- Witness of C10: a request on `sampleOutput` that differs from the current values
only in `Aspect` and `VideoDim`, with a buffer recreation that would fail. -/
theorem InputChanged_aspect_only_witness :
    (7 : MythCodecID) = currentcodec sampleOutput ∧
    (⟨1920, 1080⟩ : QSize) = currentvideodispdim sampleOutput ∧
    (4 : Int) = sampleOutput.m_maxReferenceFrames ∧
    InputChanged (fun _ _ _ _ => (false, {})) sampleOutput ⟨720, 576⟩ ⟨1920, 1080⟩ ⟨99⟩ 7
        false 4 false
      = { ret := true, AspectOnly := true, state := sampleOutput } :=
  ⟨by decide, by decide, by decide,
    InputChanged_aspect_only (fun _ _ _ _ => (false, {})) sampleOutput ⟨720, 576⟩ ⟨1920, 1080⟩
      ⟨99⟩ 7 false 4 (by decide) (by decide) (by decide)⟩

end MythGPU

namespace MythFrontend

/-- C13: `RemoveKey(key)` returns true exactly when `key` was among the action's keys;
afterwards `key` does not occur in `GetKeys()`, and `GetKeys()` is the old key list
with the occurrences of `key` left out, so all other keys stay, in their order; the
description is untouched. -/
theorem RemoveKey_removes (a : Action) (key : String) :
    ((a.RemoveKey key).1 = true ↔ key ∈ a.GetKeys) ∧
    key ∉ (a.RemoveKey key).2.GetKeys ∧
    (a.RemoveKey key).2.GetKeys = a.GetKeys.filter (fun k => k != key) ∧
    (∀ k : String, k ≠ key → ((a.RemoveKey key).2.GetKeys.count k = a.GetKeys.count k)) ∧
    List.Sublist (a.RemoveKey key).2.GetKeys a.GetKeys ∧
    (a.RemoveKey key).2.GetDescription = a.GetDescription := by
  refine ⟨?_, ?_, rfl, ?_, ?_, rfl⟩
  · simp [Action.RemoveKey, removeAll, Action.GetKeys, List.count_eq_zero]
  · simp [Action.RemoveKey, removeAll, Action.GetKeys, List.mem_filter]
  · intro k hk
    simp only [Action.RemoveKey, removeAll, Action.GetKeys]
    rw [List.count_filter]
    simpa using hk
  · exact List.filter_sublist _

/-- C14: `a == b` holds exactly when the contexts and the action names of `a` and `b`
agree; hence `==` is reflexive, symmetric and transitive. -/
theorem ActionID_eq_iff :
    (∀ a b : ActionID, a.operator_eq b = true ↔
      (a.GetContext = b.GetContext ∧ a.GetAction = b.GetAction)) ∧
    (∀ a : ActionID, a.operator_eq a = true) ∧
    (∀ a b : ActionID, a.operator_eq b = b.operator_eq a) ∧
    (∀ a b c : ActionID, a.operator_eq b = true → b.operator_eq c = true →
      a.operator_eq c = true) := by
  have key : ∀ a b : ActionID, a.operator_eq b = true ↔
      (a.GetContext = b.GetContext ∧ a.GetAction = b.GetAction) := by
    intro a b
    simp only [ActionID.operator_eq, ActionID.GetContext, ActionID.GetAction,
      Bool.and_eq_true, beq_iff_eq]
    exact And.comm
  refine ⟨key, fun a => (key a a).mpr ⟨rfl, rfl⟩, ?_, ?_⟩
  · intro a b
    rw [Bool.eq_iff_iff, key, key]
    exact ⟨fun h => ⟨h.1.symm, h.2.symm⟩, fun h => ⟨h.1.symm, h.2.symm⟩⟩
  · intro a b c hab hbc
    have h1 := (key a b).mp hab
    have h2 := (key b c).mp hbc
    exact (key a c).mpr ⟨h1.1.trans h2.1, h1.2.trans h2.2⟩

/-- C15: `Action(d)` is a new empty action: `IsEmpty()` is true, `GetKeys()` is the empty
list, `GetKeyString()` is the empty string and `GetDescription()` is `d`; and for every
action `IsEmpty()` is true exactly when `GetKeys()` is empty. -/
theorem Action_ctor_empty (d : String) :
    (Action.ctor d).IsEmpty = true ∧
    (Action.ctor d).GetKeys = [] ∧
    (Action.ctor d).GetKeyString = "" ∧
    (Action.ctor d).GetDescription = d ∧
    ∀ a : Action, a.IsEmpty = true ↔ a.GetKeys = [] :=
  ⟨rfl, rfl, rfl, rfl, fun _ => List.isEmpty_iff⟩

/-- C11: the full speaker test.  For `m_channels` among 2, 6 and 8 and no single channel
selected (`m_channel < 0`), the row index `m_channels - 2` lies in `[0, 7)`, one pass
reads `smptelayout[m_channels - 2][i]` for `i = 0, ..., m_channels - 1`, every read is
inside the array, and the values read are a permutation of `0, ..., m_channels - 1`. -/
theorem runPass_all_speakers (m_channels m_channel : Int)
    (hch : m_channels = 2 ∨ m_channels = 6 ∨ m_channels = 8) (hsel : m_channel < 0) :
    (0 ≤ m_channels - 2 ∧ m_channels - 2 < 7) ∧
    runPass m_channels m_channel
      = (List.range m_channels.toNat).map
          (fun i => smptelayoutAt (m_channels - 2) (i : Int)) ∧
    ∃ values : List Int,
      runPass m_channels m_channel = values.map some ∧
      values.length = m_channels.toNat ∧
      values.Perm ((List.range m_channels.toNat).map Int.ofNat) := by
  have hneg : ¬ m_channel ≥ 0 := by omega
  have hrun : runPass m_channels m_channel
      = (List.range m_channels.toNat).map
          (fun i => smptelayoutAt (m_channels - 2) (i : Int)) := by
    simp [runPass, hneg]
  rw [hrun]
  rcases hch with h | h | h <;> subst h
  · exact ⟨by decide, rfl, [0, 1], by decide, by decide, by decide⟩
  · exact ⟨by decide, rfl, [0, 2, 1, 5, 4, 3], by decide, by decide, by decide⟩
  · exact ⟨by decide, rfl, [0, 2, 1, 7, 5, 4, 6, 3], by decide, by decide, by decide⟩

/-- The speakers announced during one full pass are pairwise different, for each of
the three speaker configurations. -/
theorem channelName_nodup :
    (([0, 1] : List Int).map (channelName 2)).Nodup ∧
    (([0, 2, 1, 5, 4, 3] : List Int).map (channelName 6)).Nodup ∧
    (([0, 2, 1, 7, 5, 4, 6, 3] : List Int).map (channelName 8)).Nodup := by
  refine ⟨?_, ?_, ?_⟩ <;> decide

/-- Witness of C11: the 5.1 test (`m_channels = 6`) with no channel selected. -/
theorem runPass_all_speakers_witness :
    runPass 6 (-1) = [some 0, some 2, some 1, some 5, some 4, some 3] ∧
    ((0 ≤ (6 : Int) - 2 ∧ (6 : Int) - 2 < 7) ∧
     runPass 6 (-1)
       = (List.range (6 : Int).toNat).map (fun i => smptelayoutAt (6 - 2) (i : Int)) ∧
     ∃ values : List Int,
       runPass 6 (-1) = values.map some ∧
       values.length = (6 : Int).toNat ∧
       values.Perm ((List.range (6 : Int).toNat).map Int.ofNat)) :=
  ⟨by decide, runPass_all_speakers 6 (-1) (Or.inr (Or.inl rfl)) (by decide)⟩

end MythFrontend

namespace MythFrontend

/-- Looking up a key other than `key` ignores the removal of `key`. -/
theorem lookup_filter_ne (key k : String) (hk : (k == key) = false) (m : ADCMap) :
    (m.filter (fun p => p.1 != key)).lookup k = m.lookup k := by
  induction m with
  | nil => rfl
  | cons p m ih =>
      obtain ⟨pk, pv⟩ := p
      by_cases hp : pk = key
      · subst hp
        simp [List.filter, List.lookup, hk, ih]
      · have hne : (pk != key) = true := by simpa using hp
        simp only [List.filter, hne, List.lookup, ih]

/-- A lookup after `QMap::insert`. -/
theorem lookup_insert (m : ADCMap) (key : String) (value : AudioDeviceConfig) (k : String) :
    (ADCMap.insert m key value).lookup k = if k == key then some value else m.lookup k := by
  unfold ADCMap.insert
  cases hk : k == key with
  | true => simp [List.lookup, hk]
  | false => simp [List.lookup, hk, lookup_filter_ne key k hk m]

/-- After the insertion loop the map holds the keys it held before and the names of
the scanned devices. -/
theorem contains_insertAll (list : List AudioDeviceConfig) (k : String) :
    ∀ m : ADCMap, ADCMap.contains (insertAll m list) k
      = (ADCMap.contains m k || list.any (fun d => d.name == k)) := by
  induction list with
  | nil => intro m; simp [insertAll]
  | cons d list ih =>
      intro m
      have hstep : insertAll m (d :: list) = insertAll (ADCMap.insert m d.name d) list := rfl
      rw [hstep, ih]
      simp only [ADCMap.contains, lookup_insert, List.any_cons]
      by_cases hk : k = d.name
      · subst hk; simp
      · have h1 : (k == d.name) = false := by simpa using hk
        have h2 : (d.name == k) = false := by simpa using fun h => hk h.symm
        simp [h1, h2]

/-- C12: the device rescan.  When the slot lock is held the call changes nothing.  When
it is free, afterwards `audiodevs` contains the name of every device returned by the
output scan and the output device name selected at the call; the lock is free again;
`devices` is the scan result when the selected name was found by the scan, and
otherwise the scan result followed by the probed configuration of the selected name,
which is also the entry of `audiodevs` under that name. -/
theorem AudioRescan_devices {W : Type} (env : AudioEnv W) (s : AudioConfigSettings W) :
    AudioRescan env { s with slotlock := true } = { s with slotlock := true } ∧
    (∀ d ∈ env.GetOutputList,
      ADCMap.contains (AudioRescan env { s with slotlock := false }).audiodevs d.name = true) ∧
    ADCMap.contains (AudioRescan env { s with slotlock := false }).audiodevs
      (env.getValue s.widgets) = true ∧
    (AudioRescan env { s with slotlock := false }).slotlock = false ∧
    (if env.GetOutputList.any (fun d => d.name == env.getValue s.widgets) then
      (AudioRescan env { s with slotlock := false }).devices = env.GetOutputList
    else
      (AudioRescan env { s with slotlock := false }).devices
        = env.GetOutputList ++ [env.GetAudioDeviceConfig (env.getValue s.widgets)] ∧
      (AudioRescan env { s with slotlock := false }).audiodevs.lookup (env.getValue s.widgets)
        = some (env.GetAudioDeviceConfig (env.getValue s.widgets))) := by
  have hupd : ∀ t : AudioConfigSettings W,
      (UpdateCapabilities env t).audiodevs = t.audiodevs ∧
      (UpdateCapabilities env t).devices = t.devices ∧
      (UpdateCapabilities env t).slotlock = t.slotlock := by
    intro t
    unfold UpdateCapabilities
    split
    · exact ⟨rfl, rfl, rfl⟩
    · split <;> exact ⟨rfl, rfl, rfl⟩
  have hscan : ADCMap.contains (insertAll [] env.GetOutputList) (env.getValue s.widgets)
      = env.GetOutputList.any (fun d => d.name == env.getValue s.widgets) := by
    rw [contains_insertAll]; simp [ADCMap.contains]
  refine ⟨by simp [AudioRescan], ?_⟩
  by_cases hfound : env.GetOutputList.any (fun d => d.name == env.getValue s.widgets) = true
  · have hc : ADCMap.contains (insertAll [] env.GetOutputList) (env.getValue s.widgets) = true :=
      hscan.trans hfound
    simp only [AudioRescan, Bool.false_eq_true, if_false, hc, Bool.not_true, hupd, hfound,
      if_true]
    refine ⟨?_, trivial, trivial, trivial⟩
    intro d hd
    rw [contains_insertAll]
    simp only [Bool.or_eq_true, List.any_eq_true]
    exact Or.inr ⟨d, hd, by simp⟩
  · have hfound' : env.GetOutputList.any (fun d => d.name == env.getValue s.widgets) = false := by
      simpa using hfound
    have hc : ADCMap.contains (insertAll [] env.GetOutputList) (env.getValue s.widgets) = false :=
      hscan.trans hfound'
    simp only [AudioRescan, Bool.false_eq_true, if_false, hc, Bool.not_false, if_true, hupd,
      hfound']
    refine ⟨?_, ?_, trivial, ?_, ?_⟩
    · intro d hd
      have hins : ADCMap.contains (insertAll [] env.GetOutputList) d.name = true := by
        rw [contains_insertAll]
        simp only [Bool.or_eq_true, List.any_eq_true]
        exact Or.inr ⟨d, hd, by simp⟩
      split
      · simp only [ADCMap.contains, lookup_insert] at hins ⊢
        split
        · rfl
        · exact hins
      · simp only [ADCMap.contains, lookup_insert] at hins ⊢
        split
        · rfl
        · exact hins
    · split <;> simp [ADCMap.contains, lookup_insert]
    · split <;> rfl
    · split <;> simp [lookup_insert]

/-- Witness of C12: a rescan that finds two devices while the custom device
`ALSA:plughw:7` is selected. -/
theorem AudioRescan_devices_witness :
    (AudioRescan sampleEnv sampleSettings).devices
      = sampleScan ++ [sampleEnv.GetAudioDeviceConfig "ALSA:plughw:7"] ∧
    ADCMap.contains (AudioRescan sampleEnv sampleSettings).audiodevs "ALSA:default" = true ∧
    ADCMap.contains (AudioRescan sampleEnv sampleSettings).audiodevs "ALSA:hdmi" = true ∧
    ADCMap.contains (AudioRescan sampleEnv sampleSettings).audiodevs "ALSA:plughw:7" = true ∧
    ADCMap.contains (AudioRescan sampleEnv sampleSettings).audiodevs
      (sampleEnv.getValue sampleSettings.widgets) = true :=
  ⟨by decide, by decide, by decide, by decide,
    (AudioRescan_devices sampleEnv sampleSettings).2.2.1⟩

end MythFrontend

namespace MythGPU

/-- C16: `InputChanged` called twice in quick succession.  If a call with `CodecId`
different from `kCodec_NONE` takes the path that recreates the buffers and the
recreation succeeds, it returns true, the pending values are those of the request, and
an immediately following call with the same arguments and `ForceChange = false`
compares against these pending values, returns true with `AspectOnly = true`, and
leaves the object as the first call left it. -/
theorem InputChanged_twice
    (DiscardAndRecreate : VideoBuffers → MythCodecID → QSize → Int → Bool × VideoBuffers)
    (s : MythVideoOutputGPU) (VideoDim VideoDispDim : QSize) (Aspect : CFloat)
    (CodecId : MythCodecID) (AspectOnly AspectOnly2 : Bool) (ReferenceFrames : Int)
    (ForceChange : Bool)
    (hcodec : CodecId ≠ kCodec_NONE)
    (hchange : (CodecId != currentcodec s || VideoDispDim != currentvideodispdim s ||
      s.m_maxReferenceFrames != ReferenceFrames || ForceChange) = true)
    (hrecreate : (DiscardAndRecreate s.m_videoBuffers CodecId VideoDim ReferenceFrames).1 = true) :
    (InputChanged DiscardAndRecreate s VideoDim VideoDispDim Aspect CodecId AspectOnly
      ReferenceFrames ForceChange).ret = true ∧
    currentcodec (InputChanged DiscardAndRecreate s VideoDim VideoDispDim Aspect CodecId
      AspectOnly ReferenceFrames ForceChange).state = CodecId ∧
    currentvideodispdim (InputChanged DiscardAndRecreate s VideoDim VideoDispDim Aspect CodecId
      AspectOnly ReferenceFrames ForceChange).state = VideoDispDim ∧
    currentvideodim (InputChanged DiscardAndRecreate s VideoDim VideoDispDim Aspect CodecId
      AspectOnly ReferenceFrames ForceChange).state = VideoDim ∧
    currentaspect (InputChanged DiscardAndRecreate s VideoDim VideoDispDim Aspect CodecId
      AspectOnly ReferenceFrames ForceChange).state = Aspect ∧
    InputChanged DiscardAndRecreate
        (InputChanged DiscardAndRecreate s VideoDim VideoDispDim Aspect CodecId AspectOnly
          ReferenceFrames ForceChange).state
        VideoDim VideoDispDim Aspect CodecId AspectOnly2 ReferenceFrames false
      = { ret := true, AspectOnly := true,
          state := (InputChanged DiscardAndRecreate s VideoDim VideoDispDim Aspect CodecId
            AspectOnly ReferenceFrames ForceChange).state } := by
  have hfirst : InputChanged DiscardAndRecreate s VideoDim VideoDispDim Aspect CodecId AspectOnly
      ReferenceFrames ForceChange
      = { ret := true, AspectOnly := AspectOnly,
          state := { s with
            m_maxReferenceFrames := ReferenceFrames
            m_buffersCreated := true
            m_videoBuffers :=
              (DiscardAndRecreate s.m_videoBuffers CodecId VideoDim ReferenceFrames).2
            m_newCodecId := CodecId
            m_newVideoDim := VideoDim
            m_newVideoDispDim := VideoDispDim
            m_newAspect := Aspect } } := by
    simp only [InputChanged, hchange, hrecreate, Bool.not_true, Bool.false_eq_true, if_false]
  have hne : (CodecId != kCodec_NONE) = true := by simpa using hcodec
  rw [hfirst]
  refine ⟨rfl, ?_, ?_, ?_, ?_, ?_⟩
  · simp [currentcodec, hne]
  · simp [currentvideodispdim, hne]
  · simp [currentvideodim, hne]
  · simp [currentaspect, hne]
  · simp [InputChanged, currentcodec, currentvideodispdim, hne]

/-- Witness of C16: a change of codec and size on `sampleOutput`, requested twice. -/
theorem InputChanged_twice_witness :
    (InputChanged (fun vb _ _ _ => (true, vb)) sampleOutput ⟨720, 576⟩ ⟨720, 576⟩ ⟨99⟩ 9 false
      4 false).state.m_newCodecId = 9 ∧
    InputChanged (fun vb _ _ _ => (true, vb))
        (InputChanged (fun vb _ _ _ => (true, vb)) sampleOutput ⟨720, 576⟩ ⟨720, 576⟩ ⟨99⟩ 9
          false 4 false).state
        ⟨720, 576⟩ ⟨720, 576⟩ ⟨99⟩ 9 false 4 false
      = { ret := true, AspectOnly := true,
          state := (InputChanged (fun vb _ _ _ => (true, vb)) sampleOutput ⟨720, 576⟩
            ⟨720, 576⟩ ⟨99⟩ 9 false 4 false).state } :=
  ⟨by decide,
    (InputChanged_twice (fun vb _ _ _ => (true, vb)) sampleOutput ⟨720, 576⟩ ⟨720, 576⟩ ⟨99⟩ 9
      false false 4 false (by decide) (by decide) rfl).2.2.2.2.2⟩

end MythGPU
